import Mathlib

/-!
Shallow embedding of the answer-grading utility: the answer equivalence
engine of `bench/grade.py` (`normalize_number_str`, `split_string`,
`normalize_str`, `question_scorer`) and the coverage-audit utility of
`find_missing.py` (`load_level2_ids_from_csv`, `find_missing_level2`).

Python `float` values are modelled by `PyFloat`: a finite value is the
exact rational denoted by the accepted decimal literal, represented as a
decimal pair `Dec` (mantissa times a power of ten, kept unnormalized so
that every operation is plain integer arithmetic), plus signed infinities
and NaN.  IEEE rounding and overflow are abstracted away: finite literals
denote their exact values.  Python float equality (`==`) is `PyFloat.eqv`,
under which NaN is unequal to everything, including itself; on finite
values it is exact equality of the denoted rationals
(`dec_eqv_iff_toRat`).  `pyFloat?` models the `float(str)`
constructor on ASCII input: strip surrounding whitespace, optional sign,
then either a case-insensitive special value (`inf`, `infinity`, `nan`) or
a decimal literal `digitpart [. digitpart] [e sign digitpart]` with
underscores permitted only between digits; anything else fails (`none`,
where CPython raises `ValueError`).
-/

/-- An exact decimal value `m * 10 ^ e`, kept unnormalized. -/
structure Dec where
  m : Int
  e : Int
deriving DecidableEq

/-- The rational a `Dec` denotes. -/
def Dec.toRat (d : Dec) : ℚ :=
  (d.m : ℚ) * (10 : ℚ) ^ d.e

/-- Exact equality test of two decimal values, by cross-scaling the
mantissas with the (nonnegative) exponent difference. -/
def Dec.eqv (a b : Dec) : Bool :=
  if b.e ≤ a.e then decide (a.m * (10 : Int) ^ (a.e - b.e).toNat = b.m)
  else decide (a.m = b.m * (10 : Int) ^ (b.e - a.e).toNat)

/-- A Python float value: an exact finite decimal value, an infinity
(`true` means negative), or NaN. -/
inductive PyFloat where
  | finite : Dec → PyFloat
  | inf : Bool → PyFloat
  | nan : PyFloat
deriving DecidableEq

/-- Python float `==`: NaN compares unequal to everything (itself
included); infinities compare by sign; finite values compare exactly. -/
def PyFloat.eqv : PyFloat → PyFloat → Bool
  | .finite a, .finite b => Dec.eqv a b
  | .inf a, .inf b => a == b
  | _, _ => false

/-- ASCII whitespace stripped by `float(str)` (and matched by `\s`):
space, tab, newline, carriage return, vertical tab, form feed. -/
def isPyWS (c : Char) : Bool :=
  decide (c.toNat = 32 ∨ c.toNat = 9 ∨ c.toNat = 10 ∨ c.toNat = 13 ∨
    c.toNat = 11 ∨ c.toNat = 12)

/-- Read a run of digits, with single underscores permitted between
digits, accumulating onto `acc`; returns the value, the number of digits
read, and the unread remainder. -/
def digitsLoop : List Char → Nat → Nat → Nat × Nat × List Char
  | [], acc, n => (acc, n, [])
  | c :: rest, acc, n =>
    if c.isDigit then
      digitsLoop rest (acc * 10 + (c.toNat - 48)) (n + 1)
    else if c == '_' then
      match rest with
      | d :: rest2 =>
        if d.isDigit then digitsLoop rest2 (acc * 10 + (d.toNat - 48)) (n + 1)
        else (acc, n, c :: d :: rest2)
      | [] => (acc, n, [c])
    else (acc, n, c :: rest)

/-- A `digitpart` of the Python float grammar: at least one digit, with
underscores only between digits. -/
def readDigitPart (l : List Char) : Option (Nat × Nat × List Char) :=
  match l with
  | c :: rest => if c.isDigit then some (digitsLoop rest (c.toNat - 48) 1) else none
  | [] => none

/-- The decimal value denoted by integer part `ip` and `fn` fraction
digits of value `fv`. -/
def mkDec (ip fv fn : Nat) : Dec :=
  ⟨(ip * 10 ^ fn + fv : ℕ), -(fn : Int)⟩

/-- Mantissa of the Python float grammar: `digitpart [. [digitpart]]` or
`. digitpart`. -/
def parseMantissa (l : List Char) : Option (Dec × List Char) :=
  match readDigitPart l with
  | some (ip, _, rest) =>
    match rest with
    | '.' :: rest2 =>
      match readDigitPart rest2 with
      | some (fv, fn, rest3) => some (mkDec ip fv fn, rest3)
      | none => some (⟨(ip : Int), 0⟩, rest2)
    | _ => some (⟨(ip : Int), 0⟩, rest)
  | none =>
    match l with
    | '.' :: rest2 =>
      match readDigitPart rest2 with
      | some (fv, fn, rest3) => some (mkDec 0 fv fn, rest3)
      | none => none
    | _ => none

/-- Exponent clause `(e|E) [sign] digitpart`; `none` when the remainder
does not start a well-formed exponent. -/
def parseExponent (l : List Char) : Option (Int × List Char) :=
  match l with
  | c :: rest =>
    if c == 'e' || c == 'E' then
      let signed : Bool × List Char :=
        match rest with
        | '+' :: r => (false, r)
        | '-' :: r => (true, r)
        | _ => (false, rest)
      match readDigitPart signed.2 with
      | some (ev, _, r3) => some ((if signed.1 then -(ev : Int) else (ev : Int)), r3)
      | none => none
    else none
  | [] => none

/-- Scale a decimal value by a (possibly negative) power of ten. -/
def applyExp (d : Dec) (e : Int) : Dec :=
  ⟨d.m, d.e + e⟩

/-- Negate a decimal value. -/
def Dec.neg (d : Dec) : Dec :=
  ⟨-d.m, d.e⟩

/-- Strip ASCII whitespace from both ends. -/
def pyStripWS (l : List Char) : List Char :=
  ((l.dropWhile isPyWS).reverse.dropWhile isPyWS).reverse

/-- The model of Python `float(s)` on a string: `some` value on success,
`none` where CPython raises `ValueError`. -/
def pyFloat? (s : String) : Option PyFloat :=
  let l := pyStripWS s.data
  let signed : Bool × List Char :=
    match l with
    | '+' :: r => (false, r)
    | '-' :: r => (true, r)
    | _ => (false, l)
  let low := signed.2.map Char.toLower
  if low == "inf".data || low == "infinity".data then some (PyFloat.inf signed.1)
  else if low == "nan".data then some PyFloat.nan
  else
    match parseMantissa signed.2 with
    | some (d, rest) =>
      let d := if signed.1 then d.neg else d
      match rest with
      | [] => some (PyFloat.finite d)
      | _ =>
        match parseExponent rest with
        | some (e, r3) => if r3 = [] then some (PyFloat.finite (applyExp d e)) else none
        | none => none
    | none => none

/-- `is_float` of `grade.py`: does `float(element)` succeed? -/
def is_float (s : String) : Bool :=
  (pyFloat? s).isSome

/-- The value of `float(s)` at call sites where the scorer has already
checked `is_float s` (so the default is never consulted). -/
def pyFloatD (s : String) : PyFloat :=
  (pyFloat? s).getD PyFloat.nan

/-- `normalize_number_str` of `grade.py`: delete every `$`, `%` and `,`,
then parse as a float, with a parse failure yielding `float("inf")`. -/
def normalize_number_str (number_str : String) : PyFloat :=
  let stripped := String.mk (number_str.data.filter fun c => !(c == '$' || c == '%' || c == ','))
  match pyFloat? stripped with
  | some v => v
  | none => PyFloat.inf false

/-- `re.split("[,;]", s)` on the character list: split at every comma or
semicolon, consecutive delimiters yielding empty pieces. -/
def splitOnDelims : List Char → List (List Char)
  | [] => [[]]
  | c :: rest =>
    if c == ',' || c == ';' then [] :: splitOnDelims rest
    else
      match splitOnDelims rest with
      | h :: t => (c :: h) :: t
      | [] => [[c]]

/-- `split_string` of `grade.py` at its default delimiter list `[,;]`. -/
def split_string (s : String) : List String :=
  (splitOnDelims s.data).map String.mk

/-- The characters of Python `string.punctuation`. -/
def isPyPunct (c : Char) : Bool :=
  decide ((33 ≤ c.toNat ∧ c.toNat ≤ 47) ∨ (58 ≤ c.toNat ∧ c.toNat ≤ 64) ∨
    (91 ≤ c.toNat ∧ c.toNat ≤ 96) ∨ (123 ≤ c.toNat ∧ c.toNat ≤ 126))

/-- `normalize_str` of `grade.py`: delete whitespace, lowercase, and (when
`remove_punct`) delete the `string.punctuation` characters. -/
def normalize_str (input_str : String) (remove_punct : Bool) : String :=
  let no_spaces := input_str.data.filter fun c => !isPyWS c
  if remove_punct then
    String.mk ((no_spaces.map Char.toLower).filter fun c => !isPyPunct c)
  else
    String.mk (no_spaces.map Char.toLower)

/-- `question_scorer` of `grade.py`: `none` stands for Python `None`. -/
def question_scorer (model_answer : Option String) (ground_truth : String) : Bool :=
  let ma := match model_answer with
    | none => "None"
    | some s => s
  if is_float ground_truth then
    PyFloat.eqv (normalize_number_str ma) (pyFloatD ground_truth)
  else if ground_truth.data.any (fun c => c == ',' || c == ';') then
    let gt_elems := split_string ground_truth
    let ma_elems := split_string ma
    if gt_elems.length ≠ ma_elems.length then false
    else
      let comparisons := (ma_elems.zip gt_elems).map fun p =>
        if is_float p.2 then PyFloat.eqv (normalize_number_str p.1) (pyFloatD p.2)
        else normalize_str p.1 false == normalize_str p.2 false
      comparisons.all fun b => b
  else
    normalize_str ma true == normalize_str ground_truth true

/-!
Shape classification and the per-branch comparison functions, factored out
of `question_scorer` exactly as its dispatch conditions read: the
conditions inspect `ground_truth` only.
-/

/-- The shape the scorer infers for a ground truth. -/
inductive Shape where
  | numeric : Shape
  | list : Shape
  | plain : Shape
deriving DecidableEq

/-- The dispatch conditions of `question_scorer`, which inspect only the
ground truth: numeric when `float` accepts it, else list when it has a
comma or semicolon, else plain text. -/
def classify (ground_truth : String) : Shape :=
  if is_float ground_truth then Shape.numeric
  else if ground_truth.data.any (fun c => c == ',' || c == ';') then Shape.list
  else Shape.plain

/-- The numeric branch of `question_scorer`. -/
def numericCompare (ma gt : String) : Bool :=
  PyFloat.eqv (normalize_number_str ma) (pyFloatD gt)

/-- The per-element comparison of the list branch of `question_scorer`. -/
def elemCompare (ma_elem gt_elem : String) : Bool :=
  if is_float gt_elem then PyFloat.eqv (normalize_number_str ma_elem) (pyFloatD gt_elem)
  else normalize_str ma_elem false == normalize_str gt_elem false

/-- The list branch of `question_scorer`. -/
def listCompare (ma gt : String) : Bool :=
  let gt_elems := split_string gt
  let ma_elems := split_string ma
  if gt_elems.length ≠ ma_elems.length then false
  else ((ma_elems.zip gt_elems).map fun p => elemCompare p.1 p.2).all fun b => b

/-- The plain-string branch of `question_scorer`. -/
def strCompare (ma gt : String) : Bool :=
  normalize_str ma true == normalize_str gt true

/-- Comparison under a given shape. -/
def branchCompare : Shape → String → String → Bool
  | Shape.numeric, ma, gt => numericCompare ma gt
  | Shape.list, ma, gt => listCompare ma gt
  | Shape.plain, ma, gt => strCompare ma gt

/-!
Exception-aware model of the scorer.  In the source, every `float(...)`
call inside `normalize_number_str` and `is_float` sits in a
`try/except ValueError`; the two call sites `float(ground_truth)` and
`float(gt_elem)` in `question_scorer` do not, and would propagate a raised
`ValueError`.  `question_scorerE` makes those two sites fallible; totality
of the scorer is the statement that it always returns `Except.ok`.
-/

/-- An unguarded `float(s)` call: fails where CPython raises. -/
def floatE (s : String) : Except String PyFloat :=
  match pyFloat? s with
  | some v => Except.ok v
  | none => Except.error s

/-- Exception-aware per-element comparison of the list branch. -/
def elemCompareE (ma_elem gt_elem : String) : Except String Bool :=
  if is_float gt_elem then do
    let g ← floatE gt_elem
    pure (PyFloat.eqv (normalize_number_str ma_elem) g)
  else
    pure (normalize_str ma_elem false == normalize_str gt_elem false)

/-- Exception-aware accumulation of the `comparisons` list. -/
def elemsCompareE : List (String × String) → Except String (List Bool)
  | [] => pure []
  | p :: rest => do
    let b ← elemCompareE p.1 p.2
    let bs ← elemsCompareE rest
    pure (b :: bs)

/-- Exception-aware model of `question_scorer`: identical control flow,
with the two unguarded `float(...)` call sites allowed to fail. -/
def question_scorerE (model_answer : Option String) (ground_truth : String) :
    Except String Bool :=
  let ma := match model_answer with
    | none => "None"
    | some s => s
  if is_float ground_truth then do
    let g ← floatE ground_truth
    pure (PyFloat.eqv (normalize_number_str ma) g)
  else if ground_truth.data.any (fun c => c == ',' || c == ';') then
    let gt_elems := split_string ground_truth
    let ma_elems := split_string ma
    if gt_elems.length ≠ ma_elems.length then pure false
    else do
      let comparisons ← elemsCompareE (ma_elems.zip gt_elems)
      pure (comparisons.all fun b => b)
  else
    pure (normalize_str ma true == normalize_str ground_truth true)

/-!
The coverage-audit utility of `find_missing.py`.  File I/O is out of the
embedding: a CSV row is its `task_id` cell plus its optional `level` cell
(`row.get("level", "")` reads `""` when the column is missing), and a
JSONL metadata record is its `task_id` plus the resolved value
`obj.get("Level", obj.get("level", None))` rendered through `str`, absent
when neither key exists.
-/

/-- `str.strip()`: remove whitespace from both ends. -/
def pyStrip (s : String) : String :=
  String.mk (pyStripWS s.data)

/-- A row of the tabular report (CSV): task identifier and optional level
cell. -/
structure CsvRow where
  task_id : String
  level : Option String
deriving DecidableEq

/-- A metadata record (JSONL line): task identifier and optional level
field. -/
structure MetaRecord where
  task_id : String
  level : Option String
deriving DecidableEq

/-- `load_level2_ids_from_csv` of `find_missing.py` on the parsed rows:
the task ids (stripped) of rows whose stripped level cell is `"2"`. -/
def load_level2_ids_from_csv (rows : List CsvRow) : List String :=
  rows.filterMap fun row =>
    if pyStrip (row.level.getD "") = "2" then some (pyStrip row.task_id) else none

/-- `find_missing_level2` of `find_missing.py` on the parsed inputs: the
metadata records whose level resolves and strips to `"2"` and whose
stripped task id is not among the level-2 ids of the report. -/
def find_missing_level2 (rows : List CsvRow) (meta : List MetaRecord) : List String :=
  let csv_level2_ids := load_level2_ids_from_csv rows
  meta.filterMap fun obj =>
    match obj.level with
    | none => none
    | some level_value =>
      if pyStrip level_value ≠ "2" then none
      else
        let tid := pyStrip obj.task_id
        if csv_level2_ids.contains tid then none else some tid

/-!
Helper lemmas shared by the claim theorems.
-/

theorem pyFloatD_eq {s : String} {g : PyFloat} (h : pyFloat? s = some g) :
    pyFloatD s = g := by
  simp [pyFloatD, h]

theorem is_float_eq_true {s : String} {g : PyFloat} (h : pyFloat? s = some g) :
    is_float s = true := by
  simp [is_float, h]

theorem eqv_nan_right (x : PyFloat) : PyFloat.eqv x PyFloat.nan = false := by
  cases x <;> rfl

theorem eqv_posinf_left (g : PyFloat) (hg : g ≠ PyFloat.inf false) :
    PyFloat.eqv (PyFloat.inf false) g = false := by
  cases g with
  | finite d => rfl
  | nan => rfl
  | inf b =>
    cases b with
    | false => exact absurd rfl hg
    | true => rfl

theorem question_scorer_numeric (ma : Option String) (gt : String) (g : PyFloat)
    (h : pyFloat? gt = some g) :
    question_scorer ma gt =
      PyFloat.eqv (normalize_number_str (match ma with | none => "None" | some s => s)) g := by
  unfold question_scorer
  simp [is_float_eq_true h, pyFloatD_eq h]

theorem all_map_id (l : List (String × String)) (f : String × String → Bool) :
    (l.map f).all (fun b => b) = l.all f := by
  induction l with
  | nil => rfl
  | cons a t ih => simp [ih]

theorem filterMap_ite {A B : Type} (p : A → Bool) (f : A → B) (l : List A) :
    (l.filterMap fun a => if p a then some (f a) else none) = (l.filter p).map f := by
  induction l with
  | nil => rfl
  | cons a t ih => by_cases h : p a <;> simp [h, ih]

theorem floatE_ok {s : String} (h : is_float s = true) :
    floatE s = Except.ok (pyFloatD s) := by
  unfold floatE pyFloatD
  cases hp : pyFloat? s with
  | none => simp [is_float, hp] at h
  | some v => rfl

theorem elemCompareE_ok (a b : String) :
    elemCompareE a b = Except.ok (elemCompare a b) := by
  unfold elemCompareE elemCompare
  by_cases h : is_float b
  · rw [if_pos h, if_pos h, floatE_ok h]
    rfl
  · rw [if_neg h, if_neg h]
    rfl

theorem elemsCompareE_ok (l : List (String × String)) :
    elemsCompareE l = Except.ok (l.map fun p => elemCompare p.1 p.2) := by
  induction l with
  | nil => rfl
  | cons p t ih =>
    unfold elemsCompareE
    rw [elemCompareE_ok, ih]
    rfl

theorem char_toNat_ofNat_of_valid (n : Nat) (h : n.isValidChar) :
    (Char.ofNat n).toNat = n := by
  unfold Char.ofNat
  rw [dif_pos h]
  rfl

theorem toLower_of_upper {c : Char} (h : 65 ≤ c.toNat ∧ c.toNat ≤ 90) :
    (Char.toLower c).toNat = c.toNat + 32 := by
  simp only [Char.toLower]
  rw [if_pos h]
  exact char_toNat_ofNat_of_valid _ (Or.inl (by omega))

theorem toLower_eq_self {c : Char} (h : ¬(65 ≤ c.toNat ∧ c.toNat ≤ 90)) :
    Char.toLower c = c := by
  simp only [Char.toLower]
  rw [if_neg h]

theorem isPyWS_toLower (c : Char) : isPyWS (Char.toLower c) = isPyWS c := by
  by_cases h : 65 ≤ c.toNat ∧ c.toNat ≤ 90
  · simp only [isPyWS, toLower_of_upper h]
    rw [decide_eq_decide]
    omega
  · rw [toLower_eq_self h]

theorem isPyPunct_toLower (c : Char) : isPyPunct (Char.toLower c) = isPyPunct c := by
  by_cases h : 65 ≤ c.toNat ∧ c.toNat ≤ 90
  · simp only [isPyPunct, toLower_of_upper h]
    rw [decide_eq_decide]
    omega
  · rw [toLower_eq_self h]

theorem toLower_toLower (c : Char) : Char.toLower (Char.toLower c) = Char.toLower c := by
  by_cases h : 65 ≤ c.toNat ∧ c.toNat ≤ 90
  · apply toLower_eq_self
    rw [toLower_of_upper h]
    omega
  · rw [toLower_eq_self h]
    exact toLower_eq_self h

theorem normFalse_idem (l : List Char) :
    (((l.filter fun c => !isPyWS c).map Char.toLower).filter fun c => !isPyWS c).map
      Char.toLower =
    (l.filter fun c => !isPyWS c).map Char.toLower := by
  induction l with
  | nil => rfl
  | cons c t ih =>
    by_cases hw : isPyWS c
    · simp [hw, ih]
    · simp [hw, isPyWS_toLower, toLower_toLower, ih]

theorem normTrue_idem (l : List Char) :
    (((((((l.filter fun c => !isPyWS c).map Char.toLower).filter
        fun c => !isPyPunct c).filter fun c => !isPyWS c).map Char.toLower).filter
        fun c => !isPyPunct c)) =
    ((l.filter fun c => !isPyWS c).map Char.toLower).filter fun c => !isPyPunct c := by
  induction l with
  | nil => rfl
  | cons c t ih =>
    by_cases hw : isPyWS c
    · simp [hw] at ih ⊢
      exact ih
    · by_cases hp : isPyPunct (Char.toLower c)
      · simp [hw, hp, isPyWS_toLower] at ih ⊢
        exact ih
      · simp [hw, hp, isPyWS_toLower, toLower_toLower, isPyPunct_toLower] at ih ⊢
        exact ih

theorem ten_zpow_split {u v : Int} (h : v ≤ u) :
    (10 : ℚ) ^ u = (10 : ℚ) ^ ((u - v).toNat) * (10 : ℚ) ^ v := by
  rw [← zpow_natCast (10 : ℚ) (u - v).toNat, ← zpow_add₀ (by norm_num : (10 : ℚ) ≠ 0)]
  congr 1
  omega

/-- The decimal equality test is exactly equality of the denoted
rationals, so `PyFloat.eqv` on finite values is exact value equality
with no tolerance. -/
theorem dec_eqv_iff_toRat (a b : Dec) :
    Dec.eqv a b = decide (Dec.toRat a = Dec.toRat b) := by
  unfold Dec.eqv Dec.toRat
  by_cases h : b.e ≤ a.e
  · rw [if_pos h, decide_eq_decide]
    have h10 : (10 : ℚ) ^ b.e ≠ 0 := zpow_ne_zero _ (by norm_num)
    constructor
    · intro hz
      rw [ten_zpow_split h, ← mul_assoc]
      have h2 : (a.m : ℚ) * (10 : ℚ) ^ ((a.e - b.e).toNat) = (b.m : ℚ) := by
        exact_mod_cast congrArg (fun z : Int => (z : ℚ)) hz
      rw [h2]
    · intro hq
      rw [ten_zpow_split h, ← mul_assoc] at hq
      have h3 : (a.m : ℚ) * (10 : ℚ) ^ ((a.e - b.e).toNat) = (b.m : ℚ) :=
        mul_right_cancel₀ h10 hq
      exact_mod_cast h3
  · rw [if_neg h, decide_eq_decide]
    have hle : a.e ≤ b.e := le_of_not_le h
    have h10 : (10 : ℚ) ^ a.e ≠ 0 := zpow_ne_zero _ (by norm_num)
    constructor
    · intro hz
      rw [ten_zpow_split hle, ← mul_assoc]
      have h2 : (b.m : ℚ) * (10 : ℚ) ^ ((b.e - a.e).toNat) = (a.m : ℚ) := by
        exact_mod_cast (congrArg (fun z : Int => (z : ℚ)) hz).symm
      rw [h2]
    · intro hq
      rw [ten_zpow_split hle, ← mul_assoc] at hq
      have h3 : (a.m : ℚ) = (b.m : ℚ) * (10 : ℚ) ^ ((b.e - a.e).toNat) :=
        (mul_right_cancel₀ h10 hq.symm).symm
      exact_mod_cast h3

/-!
The claim theorems.
-/

/-- C1: for every ground truth that `float` accepts (value `g`) and every
model answer, the scorer returns exactly the Python-float equality test
(no tolerance: `dec_eqv_iff_toRat`) between `g` and the value of the model
answer after deleting every `$`, `%`, `,` and parsing as a float
(`normalize_number_str`). -/
theorem numeric_path_exact_equality (gt ma : String) (g : PyFloat)
    (h : pyFloat? gt = some g) :
    question_scorer (some ma) gt = PyFloat.eqv (normalize_number_str ma) g :=
  question_scorer_numeric (some ma) gt g h

/-- Witness for C1 at the spec's examples: formatting-insensitive match
and exact (non-tolerant) mismatch. -/
theorem numeric_path_exact_equality_inst :
    question_scorer (some "$1,234.50") "1234.5" = true ∧
    question_scorer (some "3.14159") "3.1416" = false := by
  constructor
  · rw [numeric_path_exact_equality "1234.5" "$1,234.50" (PyFloat.finite ⟨12345, -1⟩)
      (by decide)]
    decide
  · rw [numeric_path_exact_equality "3.1416" "3.14159" (PyFloat.finite ⟨31416, -4⟩)
      (by decide)]
    decide

/-- C2: for every ground truth that `float` rejects but that contains a
comma or semicolon, both strings are split on `[,;]`; a length mismatch
gives `false`, and otherwise the result is the conjunction over positions
of the per-element comparison (numeric when the ground-truth element
parses as a float, else whitespace-removed case-folded string equality
with punctuation preserved). -/
theorem list_path_positionwise (gt ma : String) (h1 : is_float gt = false)
    (h2 : gt.data.any (fun c => c == ',' || c == ';') = true) :
    question_scorer (some ma) gt =
      (if (split_string ma).length = (split_string gt).length then
        ((split_string ma).zip (split_string gt)).all fun p =>
          if is_float p.2 then PyFloat.eqv (normalize_number_str p.1) (pyFloatD p.2)
          else normalize_str p.1 false == normalize_str p.2 false
      else false) := by
  unfold question_scorer
  simp only [h1, h2, Bool.false_eq_true, if_false, if_true]
  by_cases hl : (split_string gt).length = (split_string ma).length
  · rw [if_neg (by simp [hl]), if_pos (Eq.symm hl)]
    exact all_map_id _ _
  · rw [if_pos hl, if_neg (fun hh => hl (Eq.symm hh))]

/-- Witness for C2 at the claim's examples: position-wise comparison is
order-sensitive, and mixed numeric/text elements compare by their own
kind. -/
theorem list_path_positionwise_inst :
    question_scorer (some "3, red fox") "3.0, Red Fox" = true ∧
    question_scorer (some "b, a") "a, b" = false := by
  constructor
  · rw [list_path_positionwise "3.0, Red Fox" "3, red fox" (by decide) (by decide)]
    decide
  · rw [list_path_positionwise "a, b" "b, a" (by decide) (by decide)]
    decide

/-- C3: for every ground truth that `float` rejects and that contains no
comma or semicolon, the scorer returns equality of the two strings
normalized with whitespace removal, lowercasing and punctuation
removal. -/
theorem plain_path_normalized_equality (gt ma : String)
    (h1 : is_float gt = false)
    (h2 : gt.data.any (fun c => c == ',' || c == ';') = false) :
    question_scorer (some ma) gt = (normalize_str ma true == normalize_str gt true) := by
  unfold question_scorer
  simp [h1, h2]

/-- Witness for C3 at the claim's example. -/
theorem plain_path_normalized_equality_inst :
    question_scorer (some "Sea-Gull!") "sea gull" = true := by
  rw [plain_path_normalized_equality "sea gull" "Sea-Gull!" (by decide) (by decide)]
  decide

/-- Counterexample to C4 as stated: `"inf"` parses as a float (so it is a
ground truth that "parses as a number"), the stripped model answer
`"abc"` fails to parse, yet the scorer returns `true`, because the
unparseable answer becomes positive infinity, which equals
`float("inf")`. -/
theorem unparseable_answer_inf_cex :
    pyFloat? (String.mk ("abc".data.filter fun c => !(c == '$' || c == '%' || c == ','))) =
      none ∧
    pyFloat? "inf" = some (PyFloat.inf false) ∧
    question_scorer (some "abc") "inf" = true := by
  refine ⟨by decide, by decide, by decide⟩

/-- C4 (amended): whenever the model answer fails to parse after
stripping `$`, `%`, `,`, it is treated as positive infinity, and the
numeric comparison returns `false` against every ground truth whose float
value is not itself positive infinity — both on the numeric path and on
the per-element numeric case of the list path. -/
theorem unparseable_answer_mismatch (ma : String)
    (h : pyFloat? (String.mk (ma.data.filter fun c => !(c == '$' || c == '%' || c == ','))) =
      none) :
    normalize_number_str ma = PyFloat.inf false ∧
    (∀ gt g, pyFloat? gt = some g → g ≠ PyFloat.inf false →
      question_scorer (some ma) gt = false) ∧
    (∀ ge g, pyFloat? ge = some g → g ≠ PyFloat.inf false →
      elemCompare ma ge = false) := by
  have hn : normalize_number_str ma = PyFloat.inf false := by
    simp only [normalize_number_str, h]
  refine ⟨hn, fun gt g hg hne => ?_, fun ge g hg hne => ?_⟩
  · rw [question_scorer_numeric (some ma) gt g hg]
    rw [hn]
    exact eqv_posinf_left g hne
  · unfold elemCompare
    rw [is_float_eq_true hg, pyFloatD_eq hg, hn]
    simp [eqv_posinf_left g hne]

/-- Witness for the amended C4: an unparseable answer mismatches the
finite ground truth `"42"`. -/
theorem unparseable_answer_mismatch_inst :
    pyFloat? (String.mk ("abc".data.filter fun c => !(c == '$' || c == '%' || c == ','))) =
      none ∧
    question_scorer (some "abc") "42" = false := by
  refine ⟨by decide, ?_⟩
  exact (unparseable_answer_mismatch "abc" (by decide)).2.1 "42" (PyFloat.finite ⟨42, 0⟩)
    (by decide) (by decide)

/-- Counterexample to C5 as stated: a metadata record at level 2 whose
task id does appear in the report (in a row recorded at level 1) is still
returned as missing, because absence is tested only against the level-2
rows of the report. -/
theorem find_missing_level2_cex :
    find_missing_level2 [⟨"A", some "1"⟩] [⟨"A", some "2"⟩] = ["A"] ∧
    (([⟨"A", some "1"⟩] : List CsvRow).map fun r => r.task_id) = ["A"] := by
  refine ⟨by decide, by decide⟩

/-- C5 (amended): the audit returns exactly the stripped task ids of
metadata records whose level field is present and strips to `"2"` and
that are absent from the set of level-2 task ids of the report (ids of
rows whose stripped level cell is `"2"`), in metadata order; in
particular the claim's example returns exactly `[B]`. -/
theorem find_missing_level2_spec :
    (∀ (rows : List CsvRow) (meta : List MetaRecord),
      find_missing_level2 rows meta =
        ((meta.filter fun obj =>
            (match obj.level with
             | none => false
             | some lv => pyStrip lv == "2") &&
            !((load_level2_ids_from_csv rows).contains (pyStrip obj.task_id))).map
          fun obj => pyStrip obj.task_id)) ∧
    find_missing_level2 [⟨"A", some "2"⟩]
      [⟨"A", some "2"⟩, ⟨"B", some "2"⟩, ⟨"C", some "1"⟩] = ["B"] := by
  constructor
  · intro rows meta
    show meta.filterMap _ = _
    rw [show (fun obj : MetaRecord =>
          match obj.level with
          | none => none
          | some level_value =>
            if pyStrip level_value ≠ "2" then none
            else
              let tid := pyStrip obj.task_id
              if (load_level2_ids_from_csv rows).contains tid then none else some tid) =
        (fun obj : MetaRecord =>
          if ((match obj.level with
               | none => false
               | some lv => pyStrip lv == "2") &&
              !((load_level2_ids_from_csv rows).contains (pyStrip obj.task_id))) then
            some (pyStrip obj.task_id)
          else none) from funext fun obj => ?_]
    · exact filterMap_ite _ _ meta
    · cases hl : obj.level with
      | none => rfl
      | some lv =>
        by_cases h2 : pyStrip lv = "2"
        · by_cases hc : (load_level2_ids_from_csv rows).contains (pyStrip obj.task_id) <;>
            simp [h2, hc]
        · simp [h2]
  · decide

/-- C6: the scorer factors through `classify`, a function of the ground
truth alone (numeric if `float` accepts it, else list if it contains a
comma or semicolon, else plain — first match wins), so the comparison
branch taken never depends on the model answer. -/
theorem question_scorer_shape_dispatch (ma : Option String) (gt : String) :
    question_scorer ma gt =
      branchCompare (classify gt) (match ma with | none => "None" | some s => s) gt := by
  unfold question_scorer classify branchCompare numericCompare listCompare strCompare
    elemCompare
  by_cases h1 : is_float gt
  · simp [h1]
  · by_cases h2 : gt.data.any (fun c => c == ',' || c == ';')
    · simp [h1, h2]
    · simp [h1, h2]

/-- C7: an absent model answer is replaced by the literal text `"None"`
before any processing, so scoring `none` coincides with scoring the
string `"None"` on every ground truth; in particular `none` does not
match `"42"`. -/
theorem absent_answer_substitution :
    (∀ gt, question_scorer none gt = question_scorer (some "None") gt) ∧
    question_scorer none "42" = false := by
  refine ⟨fun gt => rfl, by decide⟩

/-- C8: the scorer is total. In the exception-aware model
`question_scorerE`, where the two unguarded `float(...)` call sites of the
source may fail, every input produces `Except.ok` of the boolean the pure
scorer returns — no input raises. -/
theorem question_scorerE_total (ma : Option String) (gt : String) :
    question_scorerE ma gt = Except.ok (question_scorer ma gt) := by
  unfold question_scorerE question_scorer
  by_cases h1 : is_float gt
  · rw [if_pos h1, if_pos h1, floatE_ok h1]
    rfl
  · rw [if_neg h1, if_neg h1]
    by_cases h2 : gt.data.any (fun c => c == ',' || c == ';')
    · rw [if_pos h2, if_pos h2]
      by_cases hl : (split_string gt).length ≠
          (split_string (match ma with | none => "None" | some s => s)).length
      · rw [if_pos hl, if_pos hl]
        rfl
      · rw [if_neg hl, if_neg hl, elemsCompareE_ok]
        rfl
    · rw [if_neg h2, if_neg h2]
      rfl

/-- C9: `normalize_str` is idempotent for both settings of the
punctuation-removal flag. -/
theorem normalize_str_idempotent (s : String) (b : Bool) :
    normalize_str (normalize_str s b) b = normalize_str s b := by
  cases b with
  | false =>
    show String.mk _ = String.mk _
    exact congrArg String.mk (normFalse_idem s.data)
  | true =>
    show String.mk _ = String.mk _
    exact congrArg String.mk (normTrue_idem s.data)

/-- C10: a ground truth that parses to NaN is classified numeric and can
never be matched by any model answer, absent or not, since NaN is unequal
to every float under exact comparison. -/
theorem nan_ground_truth_never_matches (gt : String)
    (h : pyFloat? gt = some PyFloat.nan) (ma : Option String) :
    question_scorer ma gt = false := by
  rw [question_scorer_numeric ma gt PyFloat.nan h, eqv_nan_right]

/-- Witness for C10: even the model answer `"nan"` itself does not match
the ground truth `"nan"`, so reflexivity fails there. -/
theorem nan_ground_truth_never_matches_inst :
    question_scorer (some "nan") "nan" = false :=
  nan_ground_truth_never_matches "nan" (by decide) (some "nan")
